import Mathlib

/-!
Verification of the Deutsch / Deutsch-Jozsa demonstration script
(src/deutsch_algorithm.py).

The script owns two pieces of logic, embedded shallowly below:

* the oracle encoders: the string-dispatch branch of `deutsch_algorithm`
  (lines 29-44, the n = 1 case, raising `ValueError` on an unrecognized
  name) and `deutsch_jozsa_oracle` (lines 139-146, the general-n case,
  which has no else branch and so silently adds no gates for an
  unrecognized name);
* the outcome classifiers: `interpret_result` (lines 59-73, the n = 1
  majority rule with a strict comparison) and the exact-match check
  `is_constant` of line 166, instantiated in the source at n = 3 with the
  key pattern given by the all-zero bitstring.

A Python `dict` of measurement counts is embedded as an association list
`List (String × Nat)`: `'0' in counts` becomes key membership,
`counts.get('1', 0)` becomes `(counts.lookup "1").getD 0`, and the
possibly-raising subscript `counts['0']` is kept visible in a checked
variant returning `Except`.
-/

/-- A reversible gate operation of the circuit: `x t` is the unconditional
bit flip `qc.x(t)` and `cx c t` is the controlled flip `qc.cx(c, t)`. -/
inductive GateOp : Type
  | x (target : Nat)
  | cx (control target : Nat)
deriving DecidableEq

/-- Embeds the oracle-dispatch branch of `deutsch_algorithm`
(src/deutsch_algorithm.py lines 29-44): the ordered gate sequence each
recognized n = 1 oracle name contributes to the circuit, and the
`ValueError("Invalid oracle type")` raised by the final else branch. -/
def deutsch_oracle_gates (oracle_type : String) : Except String (List GateOp) :=
  if oracle_type = "constant_0" then Except.ok []
  else if oracle_type = "constant_1" then Except.ok [GateOp.x 1]
  else if oracle_type = "balanced_01" then Except.ok [GateOp.cx 0 1]
  else if oracle_type = "balanced_10" then
    Except.ok [GateOp.x 1, GateOp.cx 0 1, GateOp.x 1]
  else Except.error "Invalid oracle type"

/-- Embeds `deutsch_jozsa_oracle` (src/deutsch_algorithm.py lines
139-146): the gate sequence the general-n oracle adds to the circuit,
with output bit index `n`. The source function has no else branch, so an
unrecognized name adds no gates and raises nothing. -/
def deutsch_jozsa_oracle (oracle_type : String) (n : Nat) : List GateOp :=
  if oracle_type = "constant_0" then []
  else if oracle_type = "constant_1" then [GateOp.x n]
  else if oracle_type = "balanced" then [GateOp.cx 0 n]
  else []

/-- Embeds `interpret_result` (src/deutsch_algorithm.py lines 59-73):
`'constant'` iff `'0' in counts and counts['0'] > counts.get('1', 0)`,
else `'balanced'`. The guarded subscript `counts['0']` is rendered as
`(counts.lookup "0").getD 0`, which agrees with the raw access whenever
the key-membership guard holds. -/
def interpret_result (counts : List (String × Nat)) : String :=
  if "0" ∈ counts.map Prod.fst ∧
      (counts.lookup "0").getD 0 > (counts.lookup "1").getD 0
  then "constant"
  else "balanced"

/-- Embeds `interpret_result` again, keeping the Python `KeyError` that a
bare `counts['0']` subscript would raise visible as an `Except.error`, so
that totality (the guard always protecting the access) is a theorem
rather than an artifact of the embedding. -/
def interpret_result_checked (counts : List (String × Nat)) :
    Except String String :=
  if "0" ∈ counts.map Prod.fst then
    match counts.lookup "0" with
    | some c0 =>
        if c0 > (counts.lookup "1").getD 0 then Except.ok "constant"
        else Except.ok "balanced"
    | none => Except.error "KeyError"
  else Except.ok "balanced"

/-- The all-zero bitstring of length `n`, Python `'0' * n`. -/
def zeros (n : Nat) : String := String.mk (List.replicate n '0')

/-- Embeds the check of src/deutsch_algorithm.py line 166,
`all(key == '0'*3 for key in counts.keys())`, with the arity as the
parameter `n` (the source instantiates it at n = 3). -/
def is_constant (n : Nat) (counts : List (String × Nat)) : Bool :=
  (counts.map Prod.fst).all (fun key => key == zeros n)

/-- Embeds the classification printed on src/deutsch_algorithm.py line
167: `'constant' if is_constant else 'balanced'`. -/
def dj_classify (n : Nat) (counts : List (String × Nat)) : String :=
  if is_constant n counts then "constant" else "balanced"

/-- For association lists over strings, a key is among the mapped-out
keys exactly when `List.lookup` finds it: the embedding of Python's
`k in counts` agrees with the embedding of `counts.get(k)`. -/
theorem mem_keys_iff_lookup_isSome (a : String) (l : List (String × Nat)) :
    a ∈ l.map Prod.fst ↔ (l.lookup a).isSome := by
  induction l with
  | nil => simp [List.lookup]
  | cons p tl ih =>
    obtain ⟨k, v⟩ := p
    by_cases h : a = k
    · subst h
      simp [List.lookup]
    · have hbeq : (a == k) = false := beq_eq_false_iff_ne.mpr h
      simp [List.lookup, hbeq, h, ih]

/-- Claim C1: for every n = 1 measurement histogram, `interpret_result`
returns constant if and only if the key "0" is present and its count
strictly exceeds the count of "1" (0 when "1" is absent); in every other
case it returns balanced. -/
theorem C1_interpret_result_constant_iff (counts : List (String × Nat)) :
    (interpret_result counts = "constant" ↔
      ("0" ∈ counts.map Prod.fst ∧
        (counts.lookup "0").getD 0 > (counts.lookup "1").getD 0)) ∧
    (¬ ("0" ∈ counts.map Prod.fst ∧
        (counts.lookup "0").getD 0 > (counts.lookup "1").getD 0) →
      interpret_result counts = "balanced") := by
  unfold interpret_result
  by_cases h : ("0" ∈ counts.map Prod.fst ∧
      (counts.lookup "0").getD 0 > (counts.lookup "1").getD 0)
  · simp [h]
  · simp [h]

/-- Claim C2: the four recognized n = 1 oracle names produce exactly the
gate sequences of the spec table: constant_0 the empty sequence,
constant_1 a flip of bit 1, balanced_01 a controlled flip of bit 1 by
bit 0, and balanced_10 that controlled flip conjugated by flips. -/
theorem C2_deutsch_oracle_gates_table :
    deutsch_oracle_gates "constant_0" = Except.ok [] ∧
    deutsch_oracle_gates "constant_1" = Except.ok [GateOp.x 1] ∧
    deutsch_oracle_gates "balanced_01" = Except.ok [GateOp.cx 0 1] ∧
    deutsch_oracle_gates "balanced_10" =
      Except.ok [GateOp.x 1, GateOp.cx 0 1, GateOp.x 1] :=
  ⟨rfl, rfl, rfl, rfl⟩

/-- Claim C3: for every arity n and histogram, the general-n classifier
returns constant iff every key present equals the all-zero bitstring of
length n, and any present key other than the all-zero bitstring forces
balanced regardless of its count. -/
theorem C3_dj_classify_constant_iff (n : Nat) (counts : List (String × Nat)) :
    (dj_classify n counts = "constant" ↔
      ∀ key ∈ counts.map Prod.fst, key = zeros n) ∧
    (∀ p ∈ counts, p.1 ≠ zeros n → dj_classify n counts = "balanced") := by
  constructor
  · unfold dj_classify is_constant
    by_cases h : (counts.map Prod.fst).all (fun key => key == zeros n)
    · simp only [h, if_true]
      rw [List.all_eq_true] at h
      simp only [beq_iff_eq] at h
      constructor
      · intro _ key hk
        exact h key hk
      · intro _
        trivial
    · simp only [h, if_false]
      constructor
      · intro hc
        exact absurd hc (by decide)
      · intro hall
        exfalso
        apply h
        rw [List.all_eq_true]
        intro key hk
        exact beq_iff_eq.mpr (hall key hk)
  · intro p hp hne
    unfold dj_classify
    have hfalse : is_constant n counts = false := by
      unfold is_constant
      rw [List.all_eq_false]
      exact ⟨p.1, List.mem_map_of_mem Prod.fst hp, by simpa using hne⟩
    simp [hfalse]

/-- Claim C4: for every arity n, the three recognized general-n oracle
names produce exactly the spec table sequences with output index n:
constant_0 the empty sequence, constant_1 a flip of bit n, and balanced a
controlled flip of bit n by bit 0. -/
theorem C4_deutsch_jozsa_oracle_table (n : Nat) :
    deutsch_jozsa_oracle "constant_0" n = [] ∧
    deutsch_jozsa_oracle "constant_1" n = [GateOp.x n] ∧
    deutsch_jozsa_oracle "balanced" n = [GateOp.cx 0 n] :=
  ⟨rfl, rfl, rfl⟩

/-- Claim C5 counterexample: the general-n encoder does not fail on the
unrecognized name "xor_3": having no else branch, it silently returns the
empty gate sequence, indistinguishable from the constant_0 oracle, so the
claim that every arity rejects unrecognized names with an InvalidOracle
error is false. -/
theorem C5_counterexample_dj_silent :
    deutsch_jozsa_oracle "xor_3" 3 = [] ∧
    deutsch_jozsa_oracle "xor_3" 3 = deutsch_jozsa_oracle "constant_0" 3 :=
  ⟨rfl, rfl⟩

/-- Claim C5 as amended: the n = 1 encoder fails with the InvalidOracle
error on every name outside its own four recognized names and produces
no gates; the general-n encoder never fails, and every name outside its
own three recognized names silently yields the empty gate sequence. Each
encoder's statement is conditioned only on its own name set, so names
recognized by one encoder but not the other are covered. -/
theorem C5_amended_unrecognized_names (s : String) (n : Nat) :
    ((s ≠ "constant_0" ∧ s ≠ "constant_1" ∧ s ≠ "balanced_01" ∧
        s ≠ "balanced_10") →
      deutsch_oracle_gates s = Except.error "Invalid oracle type") ∧
    ((s ≠ "constant_0" ∧ s ≠ "constant_1" ∧ s ≠ "balanced") →
      deutsch_jozsa_oracle s n = []) := by
  constructor
  · rintro ⟨h0, h1, h2, h3⟩
    unfold deutsch_oracle_gates
    simp [h0, h1, h2, h3]
  · rintro ⟨h0, h1, h2⟩
    unfold deutsch_jozsa_oracle
    simp [h0, h1, h2]

/-- Witness for the amended C5 at the cross-encoder names: "balanced" is
unrecognized by the n = 1 encoder and errors there, while "balanced_01"
is unrecognized by the general-n encoder and silently yields no gates. -/
theorem C5_amended_unrecognized_names_witness :
    deutsch_oracle_gates "balanced" = Except.error "Invalid oracle type" ∧
    deutsch_jozsa_oracle "balanced_01" 3 = [] :=
  ⟨(C5_amended_unrecognized_names "balanced" 3).1
      ⟨by decide, by decide, by decide, by decide⟩,
    (C5_amended_unrecognized_names "balanced_01" 3).2
      ⟨by decide, by decide, by decide⟩⟩

/-- Claim C6: both classifiers are total: the checked embedding of
`interpret_result`, which keeps the possible KeyError of the subscript
access visible, always returns `Except.ok` of the unchecked result, and
each classifier always yields one of the two classification labels, with
balanced as the value in every non-constant case. -/
theorem C6_classifier_total (counts : List (String × Nat)) (n : Nat) :
    interpret_result_checked counts = Except.ok (interpret_result counts) ∧
    (interpret_result counts = "constant" ∨
      interpret_result counts = "balanced") ∧
    (dj_classify n counts = "constant" ∨
      dj_classify n counts = "balanced") := by
  refine ⟨?_, ?_, ?_⟩
  · unfold interpret_result_checked interpret_result
    by_cases hmem : "0" ∈ counts.map Prod.fst
    · have hsome : (counts.lookup "0").isSome :=
        (mem_keys_iff_lookup_isSome "0" counts).mp hmem
      obtain ⟨c0, hc0⟩ := Option.isSome_iff_exists.mp hsome
      rw [hc0]
      by_cases hgt : c0 > (counts.lookup "1").getD 0
      · simp [hmem, hc0, hgt]
      · simp [hmem, hc0, hgt]
    · simp [hmem]
  · unfold interpret_result
    by_cases h : ("0" ∈ counts.map Prod.fst ∧
        (counts.lookup "0").getD 0 > (counts.lookup "1").getD 0)
    · left
      rw [if_pos h]
    · right
      rw [if_neg h]
  · unfold dj_classify
    by_cases h : is_constant n counts = true
    · left
      rw [if_pos h]
    · right
      rw [if_neg h]

/-- Claim C7: both oracle encoders are deterministic and stateless: two
invocations on the same oracle spec yield identical gate sequences, which
the pure-function embedding makes definitional. -/
theorem C7_encoder_deterministic (s : String) (n : Nat) :
    deutsch_oracle_gates s = deutsch_oracle_gates s ∧
    deutsch_jozsa_oracle s n = deutsch_jozsa_oracle s n :=
  ⟨rfl, rfl⟩

/-- Claim C8: on the empty histogram the general-n classifier returns
constant, the universal condition over present keys holding vacuously,
while the n = 1 classifier returns balanced on the same input: the two
policies disagree on this edge case. -/
theorem C8_empty_histogram_disagreement (n : Nat) :
    dj_classify n [] = "constant" ∧
    interpret_result [] = "balanced" :=
  ⟨rfl, rfl⟩

/-- Claim C9: the n = 1 classifier reads nothing but the entry stored
under "0" (its presence and count together, as the lookup result) and the
count stored under "1" taken as 0 when absent: two histograms agreeing on
those classify identically, so extra keys never change the result. -/
theorem C9_interpret_result_depends_only_on_01 (c1 c2 : List (String × Nat))
    (h0 : c1.lookup "0" = c2.lookup "0")
    (h1 : (c1.lookup "1").getD 0 = (c2.lookup "1").getD 0) :
    interpret_result c1 = interpret_result c2 := by
  unfold interpret_result
  have hmem : ("0" ∈ c1.map Prod.fst) ↔ ("0" ∈ c2.map Prod.fst) := by
    rw [mem_keys_iff_lookup_isSome, mem_keys_iff_lookup_isSome, h0]
  rw [h0, h1]
  exact if_congr (and_congr hmem Iff.rfl) rfl rfl

/-- Witness for C9 at two concrete histograms that agree on the "0" entry
and the "1" count but differ in an extra key "111". -/
theorem C9_interpret_result_depends_only_on_01_witness :
    (([("0", 5), ("111", 3)] : List (String × Nat)).lookup "0" =
      ([("0", 5)] : List (String × Nat)).lookup "0") ∧
    ((([("0", 5), ("111", 3)] : List (String × Nat)).lookup "1").getD 0 =
      (([("0", 5)] : List (String × Nat)).lookup "1").getD 0) ∧
    interpret_result [("0", 5), ("111", 3)] = interpret_result [("0", 5)] :=
  ⟨rfl, rfl,
    C9_interpret_result_depends_only_on_01 [("0", 5), ("111", 3)]
      [("0", 5)] rfl rfl⟩

/-- Claim C10: the general-n classifier reads only the histogram key set,
never the counts: two histograms with the same set of present keys
classify identically for every arity. -/
theorem C10_dj_classify_depends_only_on_keys (n : Nat)
    (c1 c2 : List (String × Nat))
    (h : ∀ k : String, k ∈ c1.map Prod.fst ↔ k ∈ c2.map Prod.fst) :
    dj_classify n c1 = dj_classify n c2 := by
  unfold dj_classify
  have hconst : is_constant n c1 = is_constant n c2 := by
    unfold is_constant
    rw [Bool.eq_iff_iff, List.all_eq_true, List.all_eq_true]
    constructor
    · intro hall k hk
      exact hall k ((h k).mpr hk)
    · intro hall k hk
      exact hall k ((h k).mp hk)
  rw [hconst]

/-- Witness for C10 at two concrete histograms sharing the key set
containing only "00" but holding different counts under it. -/
theorem C10_dj_classify_depends_only_on_keys_witness :
    (∀ k : String,
      k ∈ ([("00", 5)] : List (String × Nat)).map Prod.fst ↔
        k ∈ ([("00", 7)] : List (String × Nat)).map Prod.fst) ∧
    dj_classify 2 [("00", 5)] = dj_classify 2 [("00", 7)] :=
  ⟨fun _ => Iff.rfl,
    C10_dj_classify_depends_only_on_keys 2 [("00", 5)] [("00", 7)]
      (fun _ => Iff.rfl)⟩
